import Mathlib

/-!
# Verification of the Gemini Research Agent session controller

Shallow embedding of `mcp-server/server.py`: the effort-tier configuration,
the research session state, the citation resolver (`resolve_urls`), the
search executor (`perform_web_search`), the reflection gate
(`reflect_on_research`), answer finalization (`finalize_research_answer`),
the query-generation fallback (`generate_search_queries`) and the session
controller (`research_topic`).

External collaborators (the Gemini LLM calls, the search/grounding provider)
are modelled as oracles: a value of type `Except String α` models one
collaborator call that either returns a value or raises an exception whose
text is the `String`.  Wall-clock values (`datetime.now`) are passed in as
parameters.  Counters are `Nat`; the reflection confidence score (a Python
float in [0,1] compared once against the literal 0.8) is modelled as `ℚ`.
-/

namespace GeminiResearch

/-- Fields of one `EFFORT_TIERS` entry: `{"max_searches": …, "max_research_loops": …,
"initial_queries": …, "description": …}` (server.py lines 70-89). -/
structure EffortConfig where
  max_searches : Nat
  max_research_loops : Nat
  initial_queries : Nat
  description : String
deriving Repr, DecidableEq

/-- The three effort levels accepted by `research_topic`
(`Literal["low", "medium", "high"]`). -/
inductive EffortLevel where
  | low
  | medium
  | high
deriving Repr, DecidableEq

/-- The `EFFORT_TIERS` dictionary (server.py lines 70-89). -/
def EFFORT_TIERS : EffortLevel → EffortConfig
  | .low => ⟨10, 1, 2, "Quick research with up to 10 searches and 1 research loop"⟩
  | .medium => ⟨100, 3, 4, "Balanced research with up to 100 searches and 3 research loops"⟩
  | .high => ⟨1000, 5, 6, "Comprehensive research with up to 1000 searches and 5 research loops"⟩

/-- Pydantic model `CitationSegment` (server.py lines 140-145). -/
structure CitationSegment where
  url : String
  short_url : String
  title : String
  snippet : Option String
deriving Repr, DecidableEq

/-- Pydantic model `SearchResult` (server.py lines 148-154).  The
`timestamp` field (wall-clock `datetime.now()`) is not modelled; no claim
depends on it. -/
structure SearchResult where
  content : String
  citations : List CitationSegment
  query_used : String
  search_id : Nat
deriving Repr, DecidableEq

/-- Pydantic model `SearchQuery` (server.py lines 101-111): a query string
with a rationale. -/
structure SearchQuery where
  query : String
  rationale : String
deriving Repr, DecidableEq

/-- Pydantic model `ResearchReflection` (server.py lines 124-137).
`confidence_score` is a Python float in [0,1]; the code only ever compares
it against the literal 0.8, so it is modelled as a rational number. -/
structure ResearchReflection where
  is_sufficient : Bool
  knowledge_gap : String
  follow_up_queries : List String
  confidence_score : ℚ
deriving Repr, DecidableEq

/-- Dataclass `ResearchState` (server.py lines 157-191).  The `start_time`
field (wall clock) is not modelled; no claim depends on it. -/
structure ResearchState where
  topic : String
  effort_level : EffortLevel
  search_count : Nat := 0
  loop_count : Nat := 0
  results : List SearchResult := []
  all_citations : List CitationSegment := []
  is_complete : Bool := false
deriving Repr, DecidableEq

/-- Property `ResearchState.max_searches` (server.py lines 169-172). -/
def ResearchState.max_searches (s : ResearchState) : Nat :=
  (EFFORT_TIERS s.effort_level).max_searches

/-- Property `ResearchState.max_loops` (server.py lines 174-177). -/
def ResearchState.max_loops (s : ResearchState) : Nat :=
  (EFFORT_TIERS s.effort_level).max_research_loops

/-- Property `ResearchState.searches_remaining` (server.py lines 179-182):
`max(0, max_searches - search_count)`; `Nat` subtraction is already
truncated at zero. -/
def ResearchState.searches_remaining (s : ResearchState) : Nat :=
  s.max_searches - s.search_count

/-- Property `ResearchState.can_continue` (server.py lines 184-191). -/
def ResearchState.can_continue (s : ResearchState) : Bool :=
  decide (s.search_count < s.max_searches) &&
    decide (s.loop_count < s.max_loops) && !s.is_complete

/-! ## Citation resolver -/

/-- The `chunk.web` payload of a grounding chunk: the chunk passes the
`hasattr(chunk.web, 'uri')` test exactly when a `WebInfo` is present; the
`title` and `snippet` attributes are read with `getattr` defaults, hence
`Option`. -/
structure WebInfo where
  uri : String
  title : Option String
  snippet : Option String
deriving Repr, DecidableEq

/-- A raw grounding chunk as inspected by `resolve_urls`: `web` is `none`
when `chunk.web` is absent or falsy. -/
structure GroundingChunk where
  web : Option WebInfo
deriving Repr, DecidableEq

/-- Split a character sequence at the first occurrence of `"://"`,
returning the text before it and the text after it. -/
def split_scheme_sep : List Char → Option (List Char × List Char)
  | [] => none
  | ':' :: '/' :: '/' :: tail => some ([], tail)
  | c :: rest => (split_scheme_sep rest).map fun p => (c :: p.1, p.2)

/-- Take characters up to (excluding) the first `'/'`. -/
def take_until_slash : List Char → List Char
  | [] => []
  | '/' :: _ => []
  | c :: rest => c :: take_until_slash rest

/-- Modelled semantics of `urllib.parse.urlparse` restricted to the two
components `validate_url` inspects: for a URL of the shape
`scheme://netloc/...`, the text before the first `"://"` is the scheme and
the text after it up to the next `/` is the netloc; a URL without `"://"`
yields empty scheme and netloc (as `urlparse` does for a bare word). -/
def urlparse_scheme_netloc (url : String) : String × String :=
  match split_scheme_sep url.data with
  | some (scheme, rest) => (String.mk scheme, String.mk (take_until_slash rest))
  | none => ("", "")

/-- Function `validate_url` (server.py lines 215-221): the URL must parse with both
a scheme and a netloc present (Python truthiness: both non-empty). -/
def validate_url (url : String) : Bool :=
  let p := urlparse_scheme_netloc url
  !(p.1 = "") && !(p.2 = "")

/-- Split a character sequence into its maximal whitespace-free words;
`cur` accumulates the current word in reverse. -/
def ws_words_aux : List Char → List Char → List (List Char)
  | cur, [] => if cur.isEmpty then [] else [cur.reverse]
  | cur, c :: rest =>
    if c.isWhitespace then
      if cur.isEmpty then ws_words_aux [] rest
      else cur.reverse :: ws_words_aux [] rest
    else ws_words_aux (c :: cur) rest

/-- Join words with single spaces. -/
def intercalate_space : List (List Char) → List Char
  | [] => []
  | [w] => w
  | w :: ws => w ++ ' ' :: intercalate_space ws

/-- Title normalization inside `resolve_urls` (server.py line 235):
`re.sub(r'\s+', ' ', title).strip()` — collapse every whitespace run to one
space and trim: the whitespace-free words joined by single spaces. -/
def collapse_ws (s : String) : String :=
  String.mk (intercalate_space (ws_words_aux [] s.data))

/-- The body of `resolve_urls`'s loop for the chunk at position `i` of the
input (server.py lines 228-247): skip a chunk without a truthy `web.uri`
or with an invalid URL, otherwise build one `CitationSegment` whose
`short_url` interpolates the *enumerate* index `i`. -/
def process_chunk (search_id i : Nat) (chunk : GroundingChunk) : Option CitationSegment :=
  match chunk.web with
  | none => none
  | some web =>
    if validate_url web.uri then
      let title0 := collapse_ws (web.title.getD "Unknown Source")
      let title := if title0.length > 100 then title0.take 97 ++ "..." else title0
      some { url := web.uri
             short_url := "[" ++ toString search_id ++ "-" ++ toString i ++ "]"
             title := title
             snippet := web.snippet }
    else none

/-- Function `resolve_urls` (server.py lines 224-249): iterate `enumerate(chunks)`,
keeping the accepted citations in input order. -/
def resolve_urls (grounding_chunks : List GroundingChunk) (search_id : Nat) :
    List CitationSegment :=
  grounding_chunks.enum.filterMap fun p => process_chunk search_id p.1 p.2

/-- Function `insert_citation_markers` (server.py lines 252-262). -/
def insert_citation_markers (text : String) (citations : List CitationSegment) : String :=
  if citations.isEmpty then text
  else
    text ++ "\n\n**Sources:**\n" ++
      String.join (citations.map fun c =>
        "- " ++ c.short_url ++ " [" ++ c.title ++ "](" ++ c.url ++ ")\n")

/-! ## Search executor (`perform_web_search`) -/

/-- What `perform_web_search` reads off a successful Gemini response
(server.py lines 356-369): an optional `response.text` (`none` models a
falsy text) and, when the whole `grounding_metadata.grounding_chunks`
attribute chain is present, the raw grounding chunks. -/
structure SearchResponse where
  text : Option String
  grounding_chunks : Option (List GroundingChunk)
deriving Repr, DecidableEq

/-- The success path of one `perform_web_search` attempt (server.py
lines 356-377): resolve citations from the grounding chunks when present,
default falsy text to `"No content retrieved"`, append the rendered
citation block, and carry the passed-in `search_id`. -/
def mk_search_result (query : String) (search_id : Nat) (resp : SearchResponse) :
    SearchResult :=
  let citations :=
    match resp.grounding_chunks with
    | some chunks => resolve_urls chunks search_id
    | none => []
  let content :=
    match resp.text with
    | some t => if t = "" then "No content retrieved" else t
    | none => "No content retrieved"
  { content := insert_citation_markers content citations
    citations := citations
    query_used := query
    search_id := search_id }

/-- The degraded result built when the final attempt fails (server.py
lines 386-391). -/
def degraded_result (query : String) (search_id : Nat) (err : String) : SearchResult :=
  { content := "Search failed for query: " ++ query ++ ". Error: " ++ err
    citations := []
    query_used := query
    search_id := search_id }

/-- The retry loop `for attempt in range(max_retries)` of
`perform_web_search` (server.py lines 345-392), starting at `attempt`.
The oracle gives each attempt's outcome: `.ok` a response, `.error` the
raised exception's text.  Besides the Python return value (`none` models
the implicit `None` return when the loop body never runs, which only
happens for `max_retries = 0`) the model returns the number of attempts
made, so that the retry-ceiling property can be stated. -/
def perform_ws_go (query : String) (search_id : Nat) (max_retries : Nat)
    (oracle : Nat → Except String SearchResponse) (attempt : Nat) :
    Option SearchResult × Nat :=
  if _h : attempt < max_retries then
    match oracle attempt with
    | .ok resp => (some (mk_search_result query search_id resp), attempt + 1)
    | .error e =>
      if attempt = max_retries - 1 then
        (some (degraded_result query search_id e), attempt + 1)
      else
        perform_ws_go query search_id max_retries oracle (attempt + 1)
  else (none, attempt)
termination_by max_retries - attempt
decreasing_by omega

/-- Function `perform_web_search` (server.py lines 325-392) with its attempt
counter; `max_retries` defaults to 3 at the call sites. -/
def perform_web_search (query : String) (search_id : Nat)
    (oracle : Nat → Except String SearchResponse) (max_retries : Nat := 3) :
    Option SearchResult × Nat :=
  perform_ws_go query search_id max_retries oracle 0

/-! ## Reflection gate (`reflect_on_research`) -/

/-- Function `reflect_on_research` (server.py lines 395-457).  `collab` is the
outcome of the structured reflection-LLM call (only consulted when
`current_results` is non-empty): `.ok` its parsed `ResearchReflection`,
`.error` a raised exception.  The prompt construction (last 5 results,
truncated contents) only feeds the collaborator and is not modelled. -/
def reflect_on_research (research_topic : String) (current_results : List SearchResult)
    (_effort_level : EffortLevel) (collab : Except String ResearchReflection) :
    ResearchReflection :=
  if current_results.isEmpty then
    { is_sufficient := false
      knowledge_gap := "No research results available yet"
      follow_up_queries := [research_topic]
      confidence_score := 0 }
  else
    match collab with
    | .ok r => r
    | .error _ =>
      { is_sufficient := decide (current_results.length ≥ 3)
        knowledge_gap := "Unable to analyze research completeness due to processing error"
        follow_up_queries := [research_topic ++ " additional information"]
        confidence_score := 1/2 }

/-! ## Query generation (`generate_search_queries`) -/

/-- Function `generate_search_queries` (server.py lines 265-322).  `collab` is the
outcome of the structured query-LLM call: `.ok` the parsed
`SearchQueryList` as (queries, rationale), `.error` a raised exception, in
which case the fallback list of two deterministic queries is truncated to
`num_queries` (server.py lines 312-322).  The prompt construction
(including the `existing_results` context) only feeds the collaborator and
is not modelled. -/
def generate_search_queries (research_topic : String) (num_queries : Nat)
    (collab : Except String (List SearchQuery × String)) :
    List SearchQuery × String :=
  match collab with
  | .ok r => r
  | .error _ =>
    ([⟨research_topic, "Direct topic search"⟩,
      ⟨research_topic ++ " recent developments", "Recent information"⟩].take num_queries,
     "Fallback queries due to generation error")

/-! ## Answer finalization (`finalize_research_answer`) -/

/-- The `combined_research` string (server.py lines 471-474). -/
def combined_research (results : List SearchResult) : String :=
  String.intercalate "\n\n"
    (results.map fun r => "Research Query: " ++ r.query_used ++ "\n" ++ r.content)

/-- The URL-deduplication nested loops of `finalize_research_answer`
(server.py lines 477-483): `all_citations` accumulates the first citation
seen for each distinct URL, in discovery order; `seen_urls` is the set of
URLs already taken. -/
def collect_unique_citations (results : List SearchResult) :
    List CitationSegment × List String :=
  results.foldl
    (fun acc r =>
      r.citations.foldl
        (fun (acc : List CitationSegment × List String) c =>
          if c.url ∈ acc.2 then acc else (acc.1 ++ [c], acc.2 ++ [c.url]))
        acc)
    ([], [])

/-- The numbered citation appendix (server.py lines 520-523):
`enumerate(all_citations, 1)`. -/
def citation_appendix (all_citations : List CitationSegment) : String :=
  String.join (all_citations.enum.map fun p =>
    toString (p.1 + 1) ++ ". [" ++ p.2.title ++ "](" ++ p.2.url ++ ")\n")

/-- Render of an effort level, as interpolated into the metadata footer. -/
def EffortLevel.render : EffortLevel → String
  | .low => "low"
  | .medium => "medium"
  | .high => "high"

/-- Function `finalize_research_answer` (server.py lines 460-534).  `collab` is the
outcome of the answer-LLM call (only consulted when `results` is
non-empty): `.ok` its text, `.error` a raised exception, in which case the
fallback summary (server.py lines 531-534) is returned.  `today` stands
for `get_current_date()`. -/
def finalize_research_answer (research_topic : String) (results : List SearchResult)
    (effort_level : EffortLevel) (collab : Except String String) (today : String) :
    String :=
  if results.isEmpty then
    "No research results were obtained for the topic: " ++ research_topic
  else
    let combined := combined_research results
    let all_citations := (collect_unique_citations results).1
    match collab with
    | .ok content =>
      let withSources :=
        if all_citations.isEmpty then content
        else content ++ "\n\n## Sources\n" ++ citation_appendix all_citations
      withSources ++ "\n\n---\n*Research completed on " ++ today ++ " using " ++
        effort_level.render ++ " effort level with " ++ toString results.length ++
        " queries*"
    | .error _ =>
      "Research Summary for: " ++ research_topic ++ "\n\n" ++ combined

/-! ## Session controller (`research_topic`)

The controller is modelled with one oracle per collaborator suspension
point.  Each subordinate function (`generate_search_queries`,
`perform_web_search`, `reflect_on_research`, `finalize_research_answer`)
is total in the source — it absorbs collaborator errors internally — so an
`.ok` outcome at a suspension point is that function's return value, while
an `.error` outcome models the awaited call raising (e.g. cancellation or
a validation error), which `research_topic`'s outer `try/except` catches.
`perform_web_search` always returns a `SearchResult` whose `query_used`
and `search_id` are the arguments it was given (proved as
`perform_web_search_fields` below), so its oracle only supplies the
`content` and `citations` fields.

Besides the Python return value and the registry, the model returns the
trace of session states after each mutation, so that "at every point of
the run" properties can be stated. -/

/-- The collaborator oracles of one `research_topic` run.  `web` is indexed
by the `search_id`/`search_count` at dispatch and the query; `refl` by the
value of `loop_count` during that iteration.  For `synth`, the outer
`Except` models the awaited `finalize_research_answer` call raising before
it runs (e.g. cancellation), while its `.ok` payload is the answer-LLM
outcome that `finalize_research_answer` itself consumes. -/
structure Collaborators where
  gen : Except String (List SearchQuery × String)
  web : Nat → String → Except String (String × List CitationSegment)
  refl : Nat → Except String ResearchReflection
  synth : Except String (Except String String)

/-- One search dispatch inside `research_topic` (server.py lines 596-603
and 629-636): the search result (whose `search_id` is the session's
`search_count` at dispatch time) is appended to `results`, its citations
extended onto `all_citations`, and `search_count` incremented. -/
def apply_search (st : ResearchState) (q content : String)
    (cits : List CitationSegment) : ResearchState :=
  { st with
    results := st.results ++ [⟨content, cits, q, st.search_count⟩]
    all_citations := st.all_citations ++ cits
    search_count := st.search_count + 1 }

/-- The per-phase search loop of `research_topic` (server.py lines 592-603
and 625-636): for each query, stop if `can_continue` is false, otherwise
dispatch `perform_web_search(query, search_count)` and fold in the result.
Returns the outcome (an exception aborts the loop) together with the
trace of states after each dispatch. -/
def run_searches (web : Nat → String → Except String (String × List CitationSegment)) :
    ResearchState → List String → Except String ResearchState × List ResearchState
  | st, [] => (.ok st, [])
  | st, q :: qs =>
    if st.can_continue then
      match web st.search_count q with
      | .error e => (.error e, [])
      | .ok (content, cits) =>
        let st' := apply_search st q content cits
        let rest := run_searches web st' qs
        (rest.1, st' :: rest.2)
    else (.ok st, [])

theorem run_searches_preserves_loops (web) :
    ∀ (qs : List String) (st st' : ResearchState),
      (run_searches web st qs).1 = .ok st' →
      st'.loop_count = st.loop_count ∧ st'.effort_level = st.effort_level ∧
        st'.is_complete = st.is_complete := by
  intro qs
  induction qs with
  | nil => intro st st' h; simp [run_searches] at h; simp [h]
  | cons q qs ih =>
    intro st st' h
    simp only [run_searches] at h
    by_cases hc : st.can_continue
    · simp only [hc, if_true] at h
      cases hw : web st.search_count q with
      | error e => rw [hw] at h; simp at h
      | ok v =>
        rw [hw] at h
        have := ih (apply_search st q v.1 v.2) st'
        simp only [apply_search] at this ⊢
        exact this h
    · simp only [hc, if_false] at h
      simp at h
      simp [h]

/-- The reflection loop of `research_topic` (server.py lines 606-636):
while `can_continue and loop_count < max_loops`, increment `loop_count`,
consult the reflection gate, break on sufficiency or confidence above 0.8,
otherwise run up to `searches_remaining` follow-up queries through the
search loop.  Returns the outcome together with the trace of states after
each mutation. -/
def reflect_loop (c : Collaborators) (st : ResearchState) :
    Except String ResearchState × List ResearchState :=
  if h : st.can_continue = true ∧ st.loop_count < st.max_loops then
    let st1 : ResearchState := { st with loop_count := st.loop_count + 1 }
    match c.refl st1.loop_count with
    | .error e => (.error e, [st1])
    | .ok reflection =>
      if reflection.is_sufficient || decide (reflection.confidence_score > 8/10) then
        (.ok st1, [st1])
      else
        if !reflection.follow_up_queries.isEmpty && decide (0 < st1.searches_remaining) then
          let follow_up_queries := reflection.follow_up_queries.take st1.searches_remaining
          let rs := run_searches c.web st1 follow_up_queries
          match hrs : rs.1 with
          | .error e => (.error e, st1 :: rs.2)
          | .ok st2 =>
            let rec2 := reflect_loop c st2
            (rec2.1, st1 :: (rs.2 ++ rec2.2))
        else
          let rec2 := reflect_loop c st1
          (rec2.1, st1 :: rec2.2)
  else (.ok st, [])
termination_by st.max_loops - st.loop_count
decreasing_by
  · have hp := run_searches_preserves_loops c.web _ _ _ hrs
    obtain ⟨hl, he, -⟩ := hp
    have hml : st2.max_loops = st.max_loops := by
      unfold ResearchState.max_loops
      rw [he]
    have hlc : st2.loop_count = st.loop_count + 1 := hl
    rw [hml, hlc]
    omega
  · show st.max_loops - (st.loop_count + 1) < st.max_loops - st.loop_count
    omega

/-- Statement `research_state.loop_count += 1` at the top of a reflection iteration
(server.py line 607). -/
def bump_loop (st : ResearchState) : ResearchState :=
  { st with loop_count := st.loop_count + 1 }

/-- The failure message of `research_topic`'s outer `except` handler
(server.py line 657). -/
def research_failure_message (err : String) : String :=
  "Research failed due to an error: " ++ err ++ ". Please try again or contact support."

/-- Python's `str.strip()`: remove leading and trailing whitespace. -/
def py_strip (s : String) : String :=
  String.mk (((s.data.dropWhile Char.isWhitespace).reverse.dropWhile
    Char.isWhitespace).reverse)

/-- The fresh session state allocated at `research_topic`'s line 580:
`ResearchState(topic=topic, effort_level=effort)` for the stripped topic. -/
def initial_state (topic : String) (effort : EffortLevel) : ResearchState :=
  { topic := py_strip topic, effort_level := effort }

/-- Function `research_topic` (server.py lines 542-657).  `sid` stands for the
`generate_session_id` value (an md5 of topic, effort and the wall clock —
passed in rather than computed); `reg` is the
`active_research_sessions` registry restricted to its key set, the only
thing the claims inspect.  Returns the answer string, the final registry
(the session entry inserted on entry to the `try` block is erased on every
exit path, normal or exceptional), and the trace of session states after
each mutation. -/
def research_topic (topic : String) (effort : EffortLevel) (sid : String)
    (c : Collaborators) (today : String) (reg : Finset String) :
    String × Finset String × List ResearchState :=
  if py_strip topic = "" then
    ("Error: Research topic cannot be empty.", reg, [])
  else
    match c.gen with
    | .error e =>
      (research_failure_message e, (insert sid reg).erase sid,
       [initial_state topic effort])
    | .ok (queries, _) =>
      match run_searches c.web (initial_state topic effort) (queries.map (·.query)) with
      | (.error e, tr1) =>
        (research_failure_message e, (insert sid reg).erase sid,
         initial_state topic effort :: tr1)
      | (.ok st1, tr1) =>
        match reflect_loop c st1 with
        | (.error e, tr2) =>
          (research_failure_message e, (insert sid reg).erase sid,
           initial_state topic effort :: (tr1 ++ tr2))
        | (.ok st2, tr2) =>
          match c.synth with
          | .error e =>
            (research_failure_message e, (insert sid reg).erase sid,
             initial_state topic effort ::
               (tr1 ++ tr2 ++ [{ st2 with is_complete := true }]))
          | .ok inner =>
            (finalize_research_answer (py_strip topic) st2.results effort inner today,
             (insert sid reg).erase sid,
             initial_state topic effort ::
               (tr1 ++ tr2 ++ [{ st2 with is_complete := true }]))

/-! ## Concrete inputs used by counterexamples and witnesses -/

/-- Two raw grounding references: the first has no `web` payload (and is
skipped by `resolve_urls`), the second is accepted. -/
def sample_chunks : List GroundingChunk :=
  [⟨none⟩, ⟨some ⟨"https://example.com/a", some "Example", none⟩⟩]

/-- A search result carrying one citation, used to exercise
`finalize_research_answer`'s synthesis-failure fallback. -/
def sample_result : SearchResult :=
  { content := "Content about t"
    citations := [⟨"https://example.com/a", "[0-0]", "Example", none⟩]
    query_used := "q0"
    search_id := 0 }

/-- Concrete collaborators whose every call raises, driving `research_topic`
through its exception path. -/
def fail_collab : Collaborators :=
  { gen := .error "boom"
    web := fun _ _ => .error "boom"
    refl := fun _ => .error "boom"
    synth := .error "boom" }

/-- A reflection reporting high confidence, used to exercise the
sufficiency gate. -/
def confident_reflection : ResearchReflection :=
  { is_sufficient := false
    knowledge_gap := ""
    follow_up_queries := []
    confidence_score := 95/100 }

/-- Collaborators whose reflection gate always reports `confident_reflection`. -/
def confident_collab : Collaborators :=
  { gen := .error "boom"
    web := fun _ _ => .error "boom"
    refl := fun _ => .ok confident_reflection
    synth := .error "boom" }



/-! ## Invariant-preservation lemmas for the controller loops -/

/-- Any property preserved by a guarded search dispatch is preserved by the
whole search loop: it holds at every trace state and at the final state. -/
theorem run_searches_inv (web) (P : ResearchState → Prop)
    (hstep : ∀ st q content cits, st.can_continue = true → P st →
      P (apply_search st q content cits)) :
    ∀ (qs : List String) (st : ResearchState), P st →
      (∀ s ∈ (run_searches web st qs).2, P s) ∧
      (∀ st', (run_searches web st qs).1 = .ok st' → P st') := by
  intro qs
  induction qs with
  | nil =>
    intro st hP
    refine ⟨fun s hs => absurd hs (by simp [run_searches]), fun st' h => ?_⟩
    simp only [run_searches] at h
    cases h
    exact hP
  | cons q qs ih =>
    intro st hP
    by_cases hc : st.can_continue
    · cases hw : web st.search_count q with
      | error e =>
        have heq : run_searches web st (q :: qs) = (.error e, []) := by
          simp [run_searches, hc, hw]
        refine ⟨fun s hs => absurd hs (by simp [heq]), fun st' h => ?_⟩
        rw [heq] at h
        simp at h
      | ok v =>
        obtain ⟨content, cits⟩ := v
        have hP' := hstep st q content cits hc hP
        obtain ⟨ih1, ih2⟩ := ih (apply_search st q content cits) hP'
        have heq : run_searches web st (q :: qs) =
            ((run_searches web (apply_search st q content cits) qs).1,
             apply_search st q content cits ::
               (run_searches web (apply_search st q content cits) qs).2) := by
          simp [run_searches, hc, hw]
        constructor
        · intro s hs
          rw [heq] at hs
          rcases List.mem_cons.mp hs with rfl | hs
          · exact hP'
          · exact ih1 s hs
        · intro st' h
          rw [heq] at h
          exact ih2 st' h
    · have heq : run_searches web st (q :: qs) = (.ok st, []) := by
        simp [run_searches, hc]
      refine ⟨fun s hs => absurd hs (by simp [heq]), fun st' h => ?_⟩
      rw [heq] at h
      cases h
      exact hP

theorem reflect_loop_eq_stop (c : Collaborators) (st : ResearchState)
    (h : ¬(st.can_continue = true ∧ st.loop_count < st.max_loops)) :
    reflect_loop c st = (.ok st, []) := by
  rw [reflect_loop, dif_neg h]

theorem reflect_loop_eq_refl_error (c : Collaborators) (st : ResearchState) (e : String)
    (hcond : st.can_continue = true ∧ st.loop_count < st.max_loops)
    (hrefl : c.refl (st.loop_count + 1) = .error e) :
    reflect_loop c st = (.error e, [bump_loop st]) := by
  rw [reflect_loop, dif_pos hcond]
  simp only [hrefl, bump_loop]

theorem reflect_loop_eq_break (c : Collaborators) (st : ResearchState)
    (reflection : ResearchReflection)
    (hcond : st.can_continue = true ∧ st.loop_count < st.max_loops)
    (hrefl : c.refl (st.loop_count + 1) = .ok reflection)
    (hsuff : (reflection.is_sufficient ||
      decide (reflection.confidence_score > 8/10)) = true) :
    reflect_loop c st = (.ok (bump_loop st), [bump_loop st]) := by
  rw [reflect_loop, dif_pos hcond]
  simp only [hrefl, hsuff, if_true, bump_loop]

theorem reflect_loop_eq_search_error (c : Collaborators) (st : ResearchState)
    (reflection : ResearchReflection) (e : String)
    (hcond : st.can_continue = true ∧ st.loop_count < st.max_loops)
    (hrefl : c.refl (st.loop_count + 1) = .ok reflection)
    (hsuff : (reflection.is_sufficient ||
      decide (reflection.confidence_score > 8/10)) = false)
    (hfq : (!reflection.follow_up_queries.isEmpty &&
      decide (0 < (bump_loop st).searches_remaining)) = true)
    (hrs : (run_searches c.web (bump_loop st)
      (reflection.follow_up_queries.take (bump_loop st).searches_remaining)).1 =
        .error e) :
    reflect_loop c st = (.error e, bump_loop st ::
      (run_searches c.web (bump_loop st)
        (reflection.follow_up_queries.take (bump_loop st).searches_remaining)).2) := by
  rw [reflect_loop, dif_pos hcond]
  simp only [bump_loop] at hrs hfq ⊢
  simp only [hrefl, hsuff, Bool.false_eq_true, if_false, hfq, if_true]
  split
  · rename_i e' heq
    rw [hrs] at heq
    cases heq
    rfl
  · rename_i st2 heq
    rw [hrs] at heq
    cases heq

theorem reflect_loop_eq_search_ok (c : Collaborators) (st : ResearchState)
    (reflection : ResearchReflection) (st2 : ResearchState)
    (hcond : st.can_continue = true ∧ st.loop_count < st.max_loops)
    (hrefl : c.refl (st.loop_count + 1) = .ok reflection)
    (hsuff : (reflection.is_sufficient ||
      decide (reflection.confidence_score > 8/10)) = false)
    (hfq : (!reflection.follow_up_queries.isEmpty &&
      decide (0 < (bump_loop st).searches_remaining)) = true)
    (hrs : (run_searches c.web (bump_loop st)
      (reflection.follow_up_queries.take (bump_loop st).searches_remaining)).1 =
        .ok st2) :
    reflect_loop c st = ((reflect_loop c st2).1, bump_loop st ::
      ((run_searches c.web (bump_loop st)
        (reflection.follow_up_queries.take (bump_loop st).searches_remaining)).2 ++
       (reflect_loop c st2).2)) := by
  rw [reflect_loop, dif_pos hcond]
  simp only [bump_loop] at hrs hfq ⊢
  simp only [hrefl, hsuff, Bool.false_eq_true, if_false, hfq, if_true]
  split
  · rename_i e' heq
    rw [hrs] at heq
    cases heq
  · rename_i st2' heq
    rw [hrs] at heq
    cases heq
    rfl

theorem reflect_loop_eq_no_follow_up (c : Collaborators) (st : ResearchState)
    (reflection : ResearchReflection)
    (hcond : st.can_continue = true ∧ st.loop_count < st.max_loops)
    (hrefl : c.refl (st.loop_count + 1) = .ok reflection)
    (hsuff : (reflection.is_sufficient ||
      decide (reflection.confidence_score > 8/10)) = false)
    (hfq : (!reflection.follow_up_queries.isEmpty &&
      decide (0 < (bump_loop st).searches_remaining)) = false) :
    reflect_loop c st =
      ((reflect_loop c (bump_loop st)).1,
       bump_loop st :: (reflect_loop c (bump_loop st)).2) := by
  rw [reflect_loop, dif_pos hcond]
  simp only [bump_loop] at hfq ⊢
  simp only [hrefl, hsuff, Bool.false_eq_true, if_false, hfq]

/-- Any property preserved by a guarded search dispatch and by a guarded
loop increment is an invariant of the whole reflection loop: it holds at
every trace state and at the final state. -/
theorem reflect_loop_inv (c : Collaborators) (P : ResearchState → Prop)
    (hsearch : ∀ st q content cits, st.can_continue = true → P st →
      P (apply_search st q content cits))
    (hloop : ∀ st, st.can_continue = true → st.loop_count < st.max_loops → P st →
      P (bump_loop st)) :
    ∀ st, P st →
      (∀ s ∈ (reflect_loop c st).2, P s) ∧
      (∀ st', (reflect_loop c st).1 = .ok st' → P st') := by
  intro st
  induction st using reflect_loop.induct c with
  | case1 st hcond st1 e hrefl =>
    intro hP
    rw [reflect_loop_eq_refl_error c st e hcond hrefl]
    have hP1 : P (bump_loop st) := hloop st hcond.1 hcond.2 hP
    refine ⟨fun s hs => ?_, fun st' h => by cases h⟩
    rw [List.mem_singleton.mp hs]
    exact hP1
  | case2 st hcond st1 reflection hrefl hsuff =>
    intro hP
    rw [reflect_loop_eq_break c st reflection hcond hrefl hsuff]
    have hP1 : P (bump_loop st) := hloop st hcond.1 hcond.2 hP
    refine ⟨fun s hs => ?_, fun st' h => ?_⟩
    · rw [List.mem_singleton.mp hs]
      exact hP1
    · cases h
      exact hP1
  | case3 st hcond st1 reflection hrefl hsuff hfq fqs rs e hrs =>
    intro hP
    rw [reflect_loop_eq_search_error c st reflection e hcond hrefl
      (by simpa using hsuff) hfq hrs]
    have hP1 : P (bump_loop st) := hloop st hcond.1 hcond.2 hP
    have hri := run_searches_inv c.web P hsearch
      (reflection.follow_up_queries.take (bump_loop st).searches_remaining)
      (bump_loop st) hP1
    refine ⟨fun s hs => ?_, fun st' h => by cases h⟩
    rcases List.mem_cons.mp hs with rfl | hs
    · exact hP1
    · exact hri.1 s hs
  | case4 st hcond st1 reflection hrefl hsuff hfq fqs rs st2 hrs ih =>
    intro hP
    rw [reflect_loop_eq_search_ok c st reflection st2 hcond hrefl
      (by simpa using hsuff) hfq hrs]
    have hP1 : P (bump_loop st) := hloop st hcond.1 hcond.2 hP
    have hri := run_searches_inv c.web P hsearch
      (reflection.follow_up_queries.take (bump_loop st).searches_remaining)
      (bump_loop st) hP1
    have hP2 : P st2 := hri.2 st2 hrs
    obtain ⟨ih1, ih2⟩ := ih hP2
    refine ⟨fun s hs => ?_, fun st' h => ih2 st' h⟩
    rcases List.mem_cons.mp hs with rfl | hs
    · exact hP1
    · rcases List.mem_append.mp hs with hs | hs
      · exact hri.1 s hs
      · exact ih1 s hs
  | case5 st hcond st1 reflection hrefl hsuff hfq ih =>
    intro hP
    rw [reflect_loop_eq_no_follow_up c st reflection hcond hrefl
      (by simpa using hsuff) (by simpa using hfq)]
    have hP1 : P (bump_loop st) := hloop st hcond.1 hcond.2 hP
    obtain ⟨ih1, ih2⟩ := ih hP1
    refine ⟨fun s hs => ?_, fun st' h => ih2 st' h⟩
    rcases List.mem_cons.mp hs with rfl | hs
    · exact hP1
    · exact ih1 s hs
  | case6 st hcond =>
    intro hP
    rw [reflect_loop_eq_stop c st hcond]
    refine ⟨fun s hs => absurd hs (List.not_mem_nil s), fun st' h => ?_⟩
    cases h
    exact hP

/-! ## Claims -/

/-- Claim C9. For every topic and effort tier, calling `reflect_on_research`
with an empty result list returns — for every behaviour of the reflection
collaborator, i.e. without consulting it — a reflection with
`is_sufficient = false`, `confidence_score = 0.0`, and a follow-up list
that is exactly `[topic]`. -/
theorem reflect_on_research_empty (topic : String) (effort : EffortLevel)
    (collab : Except String ResearchReflection) :
    reflect_on_research topic [] effort collab =
      { is_sufficient := false
        knowledge_gap := "No research results available yet"
        follow_up_queries := [topic]
        confidence_score := 0 } := rfl

/-- Claim C10. For every topic and effort tier, calling
`finalize_research_answer` with an empty result list returns the fixed
string `"No research results were obtained for the topic: "` followed by
the topic — for every behaviour of the synthesis collaborator, i.e.
without consulting it, and hence without the citation appendix or the
run-metadata footer that only the synthesis path appends. -/
theorem finalize_research_answer_empty (topic : String) (effort : EffortLevel)
    (collab : Except String String) (today : String) :
    finalize_research_answer topic [] effort collab today =
      "No research results were obtained for the topic: " ++ topic := rfl

/-- Claim C4, counterexample. For requested count 3 (within the claimed range
1..6), total delegation failure makes `generate_search_queries` return
only 2 queries, not the claimed `count` queries. -/
theorem generate_search_queries_count_counterexample :
    ((generate_search_queries "quantum computing" 3 (.error "API Error")).1.length = 2) ∧
      (2 : Nat) ≠ 3 := by
  constructor
  · rfl
  · decide

/-- Claim C4, amended. When the query-generation collaborator fails entirely,
`generate_search_queries` returns `min count 2` deterministic queries
derived from the topic (not `count` of them): the first is the topic
itself and every query's text extends the topic. -/
theorem generate_search_queries_fallback_amended (topic : String) (count : Nat)
    (e : String) (hc : 1 ≤ count) :
    ((generate_search_queries topic count (.error e)).1.length = min count 2) ∧
    ((generate_search_queries topic count (.error e)).1.head?.map (·.query) =
      some topic) ∧
    (∀ q ∈ (generate_search_queries topic count (.error e)).1,
      ∃ suffix, q.query = topic ++ suffix) := by
  match count, hc with
  | 1, _ =>
    refine ⟨rfl, rfl, ?_⟩
    intro q hq
    have hq' : q = ⟨topic, "Direct topic search"⟩ := by
      simpa [generate_search_queries] using hq
    exact ⟨"", by rw [hq']; simp⟩
  | (n + 2), _ =>
    refine ⟨?_, rfl, ?_⟩
    · show (List.take (n + 2) _).length = min (n + 2) 2
      rw [List.length_take]
      rfl
    · intro q hq
      simp only [generate_search_queries] at hq
      have hsub := List.take_subset (n + 2)
        [(⟨topic, "Direct topic search"⟩ : SearchQuery),
         ⟨topic ++ " recent developments", "Recent information"⟩]
      have hq2 := hsub hq
      rcases List.mem_cons.mp hq2 with rfl | hq2
      · exact ⟨"", by simp⟩
      · rcases List.mem_cons.mp hq2 with rfl | hq2
        · exact ⟨" recent developments", rfl⟩
        · simp at hq2

/-- Claim C4, amended, witness at topic `"t"`, count 1. -/
theorem generate_search_queries_fallback_amended_witness :
    (1 ≤ 1) ∧
    (((generate_search_queries "t" 1 (.error "boom")).1.length = min 1 2) ∧
     ((generate_search_queries "t" 1 (.error "boom")).1.head?.map (·.query) =
       some "t") ∧
     (∀ q ∈ (generate_search_queries "t" 1 (.error "boom")).1,
       ∃ suffix, q.query = "t" ++ suffix)) :=
  ⟨le_refl 1, generate_search_queries_fallback_amended "t" 1 "boom" (le_refl 1)⟩

/-- Claim C5, counterexample. With one result that carries one citation, a
synthesis failure makes `finalize_research_answer` return the plain
summary without any citation appendix: the accumulated citation's URL
does not occur anywhere in the returned text (its character sequence is
not an infix of the output's), even though the accumulated deduplicated
citation list is non-empty. -/
theorem finalize_fallback_counterexample :
    (finalize_research_answer "t" [sample_result] .low (.error "boom") "June 01, 2025" =
      "Research Summary for: t\n\nResearch Query: q0\nContent about t") ∧
    (¬ ("https://example.com/a".data <:+:
        ("Research Summary for: t\n\nResearch Query: q0\nContent about t").data)) ∧
    ((collect_unique_citations [sample_result]).1 ≠ []) := by
  refine ⟨rfl, by decide, by decide⟩

/-- Claim C5, amended. For every non-empty result list, when the
answer-synthesis collaborator fails, `finalize_research_answer` returns
the header `"Research Summary for: <topic>"` followed by the plain
concatenation of the raw result contents (each prefixed by its query) —
with no citation appendix appended. -/
theorem finalize_fallback_amended (topic : String) (results : List SearchResult)
    (effort : EffortLevel) (e today : String) (hne : results ≠ []) :
    finalize_research_answer topic results effort (.error e) today =
      "Research Summary for: " ++ topic ++ "\n\n" ++ combined_research results := by
  unfold finalize_research_answer
  rw [if_neg (by simpa using hne)]

/-- Claim C5, amended, witness at one concrete result. -/
theorem finalize_fallback_amended_witness :
    ([sample_result] ≠ []) ∧
    (finalize_research_answer "t" [sample_result] .low (.error "x") "d" =
      "Research Summary for: t" ++ "\n\n" ++ combined_research [sample_result]) := by
  refine ⟨by decide, ?_⟩
  have h := finalize_fallback_amended "t" [sample_result] .low "x" "d" (by decide)
  simpa using h

/-- Claim C3, counterexample. With a skipped first reference (no `web`
payload) followed by one accepted reference, the single accepted citation
— position 0 among accepted entries — carries `short_url = "[7-1]"`, the
position in the raw input, not the claimed `"[7-0]"`. -/
theorem resolve_urls_short_url_counterexample :
    ((resolve_urls sample_chunks 7).map (fun c => c.short_url) = ["[7-1]"]) ∧
      (["[7-1]"] ≠ (["[7-0]"] : List String)) := by
  refine ⟨by decide, by decide⟩

/-- Claim C3, amended. Every citation produced by `resolve_urls` carries
`short_url = "[searchId-i]"` where `i` is the zero-based position of its
originating reference in the *raw input list* (skipped entries included, so
the interpolated indices of the accepted citations may skip values), and
its `url` is that reference's URL, which passed validation. -/
theorem resolve_urls_short_url_amended (chunks : List GroundingChunk) (sid : Nat)
    (c : CitationSegment) (hc : c ∈ resolve_urls chunks sid) :
    ∃ (i : Nat) (ch : GroundingChunk) (w : WebInfo),
      chunks[i]? = some ch ∧ ch.web = some w ∧
      validate_url w.uri = true ∧ c.url = w.uri ∧
      c.short_url = "[" ++ toString sid ++ "-" ++ toString i ++ "]" := by
  unfold resolve_urls at hc
  obtain ⟨⟨i, ch⟩, hmem, hproc⟩ := List.mem_filterMap.mp hc
  have hget : chunks[i]? = some ch := List.mk_mem_enum_iff_getElem?.mp hmem
  refine ⟨i, ch, ?_⟩
  unfold process_chunk at hproc
  split at hproc
  · cases hproc
  · rename_i w hweb
    split at hproc
    · rename_i hv
      simp only [Option.some.injEq] at hproc
      subst hproc
      exact ⟨w, hget, hweb, hv, rfl, rfl⟩
    · cases hproc

/-- Claim C3, amended, witness at the concrete chunk list. -/
theorem resolve_urls_short_url_amended_witness :
    ((⟨"https://example.com/a", "[7-1]", "Example", none⟩ : CitationSegment) ∈
       resolve_urls sample_chunks 7) ∧
    (∃ (i : Nat) (ch : GroundingChunk) (w : WebInfo),
      sample_chunks[i]? = some ch ∧ ch.web = some w ∧
      validate_url w.uri = true ∧
      (⟨"https://example.com/a", "[7-1]", "Example", none⟩ : CitationSegment).url = w.uri ∧
      (⟨"https://example.com/a", "[7-1]", "Example", none⟩ : CitationSegment).short_url =
        "[" ++ toString 7 ++ "-" ++ toString i ++ "]") :=
  ⟨by decide,
   resolve_urls_short_url_amended sample_chunks 7 _ (by decide)⟩

/-- Whenever the retry loop returns a result (success or degraded), that
result carries the `query` and `search_id` it was dispatched with.  This
justifies the session-controller model forcing those two fields at each
dispatch. -/
theorem perform_ws_go_fields (query : String) (sid : Nat)
    (oracle : Nat → Except String SearchResponse) (mr : Nat) :
    ∀ (n attempt : Nat) (r : SearchResult) (a : Nat), mr - attempt = n →
      perform_ws_go query sid mr oracle attempt = (some r, a) →
      r.query_used = query ∧ r.search_id = sid := by
  intro n
  induction n with
  | zero =>
    intro attempt r a hn hgo
    rw [perform_ws_go, dif_neg (by omega)] at hgo
    simp at hgo
  | succ n ih =>
    intro attempt r a hn hgo
    rw [perform_ws_go] at hgo
    by_cases hlt : attempt < mr
    · rw [dif_pos hlt] at hgo
      split at hgo
      · simp only [Prod.mk.injEq, Option.some.injEq] at hgo
        rw [← hgo.1]
        exact ⟨rfl, rfl⟩
      · split at hgo
        · simp only [Prod.mk.injEq, Option.some.injEq] at hgo
          rw [← hgo.1]
          exact ⟨rfl, rfl⟩
        · exact ih (attempt + 1) r a (by omega) hgo
    · rw [dif_neg hlt] at hgo
      simp at hgo

/-- Function `perform_web_search` returns results that carry the passed-in query
and `search_id`, for every collaborator behaviour. -/
theorem perform_web_search_fields (query : String) (sid : Nat)
    (oracle : Nat → Except String SearchResponse) (mr : Nat)
    (r : SearchResult) (a : Nat)
    (h : perform_web_search query sid oracle mr = (some r, a)) :
    r.query_used = query ∧ r.search_id = sid :=
  perform_ws_go_fields query sid oracle mr (mr - 0) 0 r a rfl h

/-- Helper for C6: from any starting attempt, if every remaining attempt
fails, the retry loop runs to the last attempt and returns the degraded
result built from the last error. -/
theorem perform_ws_go_all_fail (query : String) (sid : Nat)
    (oracle : Nat → Except String SearchResponse) (mr : Nat) :
    ∀ (n attempt : Nat), mr - attempt = n → attempt < mr →
      (∀ i, attempt ≤ i → i < mr → ∃ e, oracle i = Except.error e) →
      ∃ e, oracle (mr - 1) = Except.error e ∧
        perform_ws_go query sid mr oracle attempt =
          (some (degraded_result query sid e), mr) := by
  intro n
  induction n with
  | zero => intro attempt h0 hlt; omega
  | succ n ih =>
    intro attempt hn hlt hfail
    obtain ⟨e, he⟩ := hfail attempt le_rfl hlt
    by_cases hlast : attempt = mr - 1
    · refine ⟨e, by rw [← hlast]; exact he, ?_⟩
      rw [perform_ws_go, dif_pos hlt, he]
      show (if attempt = mr - 1 then (some (degraded_result query sid e), attempt + 1)
            else perform_ws_go query sid mr oracle (attempt + 1)) =
          (some (degraded_result query sid e), mr)
      rw [if_pos hlast, hlast]
      have hm : mr - 1 + 1 = mr := by omega
      rw [hm]
    · obtain ⟨e', he', hgo⟩ :=
        ih (attempt + 1) (by omega) (by omega)
          (fun i h1 h2 => hfail i (by omega) h2)
      refine ⟨e', he', ?_⟩
      rw [perform_ws_go, dif_pos hlt, he]
      show (if attempt = mr - 1 then (some (degraded_result query sid e), attempt + 1)
            else perform_ws_go query sid mr oracle (attempt + 1)) =
          (some (degraded_result query sid e'), mr)
      rw [if_neg hlast]
      exact hgo

/-- Claim C6. For every query and `searchId`, if every attempt of the search
collaborator fails, `perform_web_search` never raises: it makes exactly
`max_retries` attempts (3 at every call site) and returns a `SearchResult`
whose content interpolates the query and the last attempt's error, whose
citations list is empty, and which carries the passed-in `searchId`. -/
theorem perform_web_search_all_fail (query : String) (sid : Nat)
    (oracle : Nat → Except String SearchResponse) (mr : Nat) (hmr : 0 < mr)
    (hfail : ∀ i, i < mr → ∃ e, oracle i = Except.error e) :
    ∃ e, oracle (mr - 1) = Except.error e ∧
      perform_web_search query sid oracle mr =
        (some { content := "Search failed for query: " ++ query ++ ". Error: " ++ e
                citations := []
                query_used := query
                search_id := sid }, mr) := by
  obtain ⟨e, he, hgo⟩ := perform_ws_go_all_fail query sid oracle mr (mr - 0) 0 rfl hmr
    (fun i _ h2 => hfail i h2)
  exact ⟨e, he, hgo⟩

/-- Claim C6, witness at query `"q"`, `searchId` 5, an oracle that always
raises `"network down"`, and the default retry ceiling 3. -/
theorem perform_web_search_all_fail_witness :
    ∃ e, (fun _ : Nat => (Except.error "network down" : Except String SearchResponse))
        (3 - 1) = Except.error e ∧
      perform_web_search "q" 5
          (fun _ => (Except.error "network down" : Except String SearchResponse)) 3 =
        (some { content := "Search failed for query: " ++ "q" ++ ". Error: " ++ e
                citations := []
                query_used := "q"
                search_id := 5 }, 3) :=
  perform_web_search_all_fail "q" 5 (fun _ => Except.error "network down") 3
    (by decide) (fun i _ => ⟨"network down", rfl⟩)

/-- Unfolding of the `can_continue` property into its three conjuncts. -/
theorem can_continue_iff (s : ResearchState) :
    s.can_continue = true ↔
      s.search_count < s.max_searches ∧ s.loop_count < s.max_loops ∧
        s.is_complete = false := by
  simp [ResearchState.can_continue, Bool.and_eq_true, decide_eq_true_eq,
    Bool.not_eq_true', and_assoc]

/-- Claim C2. After any `research_topic` call on a non-empty topic returns —
synthesized answer or failure message, for every collaborator behaviour
including an exception raised in any phase — the session identifier
generated for that call is absent from the registry. -/
theorem research_topic_registry_cleanup (topic : String) (effort : EffortLevel)
    (sid : String) (c : Collaborators) (today : String) (reg : Finset String)
    (ht : py_strip topic ≠ "") :
    sid ∉ (research_topic topic effort sid c today reg).2.1 := by
  unfold research_topic
  rw [if_neg ht]
  split
  · exact Finset.not_mem_erase _ _
  · split
    · exact Finset.not_mem_erase _ _
    · split
      · exact Finset.not_mem_erase _ _
      · split
        · exact Finset.not_mem_erase _ _
        · exact Finset.not_mem_erase _ _

/-- Claim C2, witness at topic `"t"`, low tier, identifier `"abc"`, the
always-raising collaborators and an empty registry. -/
theorem research_topic_registry_cleanup_witness :
    "abc" ∉ (research_topic "t" .low "abc" fail_collab "d" ∅).2.1 :=
  research_topic_registry_cleanup "t" .low "abc" fail_collab "d" ∅ (by decide)

/-- Claim C1. For every run of `research_topic` under any effort tier and any
collaborator behaviour, every session state reached during the run — the
trace records the state after each mutation, the state at finalization
included — has `search_count` at most the tier's `max_searches` and
`loop_count` at most the tier's `max_research_loops`. -/
theorem research_topic_budget_invariant (topic : String) (effort : EffortLevel)
    (sid : String) (c : Collaborators) (today : String) (reg : Finset String)
    (s : ResearchState)
    (hs : s ∈ (research_topic topic effort sid c today reg).2.2) :
    s.search_count ≤ (EFFORT_TIERS effort).max_searches ∧
      s.loop_count ≤ (EFFORT_TIERS effort).max_research_loops := by
  have hsearch : ∀ st q content cits, st.can_continue = true →
      (st.effort_level = effort ∧ st.search_count ≤ st.max_searches ∧
        st.loop_count ≤ st.max_loops) →
      ((apply_search st q content cits).effort_level = effort ∧
        (apply_search st q content cits).search_count ≤
          (apply_search st q content cits).max_searches ∧
        (apply_search st q content cits).loop_count ≤
          (apply_search st q content cits).max_loops) := by
    intro st q content cits hcc hPst
    obtain ⟨he, h1, h2⟩ := hPst
    have hlt := ((can_continue_iff st).mp hcc).1
    refine ⟨he, ?_, h2⟩
    show st.search_count + 1 ≤ st.max_searches
    omega
  have hloop : ∀ st, st.can_continue = true → st.loop_count < st.max_loops →
      (st.effort_level = effort ∧ st.search_count ≤ st.max_searches ∧
        st.loop_count ≤ st.max_loops) →
      ((bump_loop st).effort_level = effort ∧
        (bump_loop st).search_count ≤ (bump_loop st).max_searches ∧
        (bump_loop st).loop_count ≤ (bump_loop st).max_loops) := by
    intro st hcc hlt hPst
    obtain ⟨he, h1, h2⟩ := hPst
    refine ⟨he, h1, ?_⟩
    show st.loop_count + 1 ≤ st.max_loops
    omega
  have hP0 : (initial_state topic effort).effort_level = effort ∧
      (initial_state topic effort).search_count ≤ (initial_state topic effort).max_searches ∧
      (initial_state topic effort).loop_count ≤ (initial_state topic effort).max_loops :=
    ⟨rfl, Nat.zero_le _, Nat.zero_le _⟩
  have final : ∀ s' : ResearchState,
      (s'.effort_level = effort ∧ s'.search_count ≤ s'.max_searches ∧
        s'.loop_count ≤ s'.max_loops) →
      s'.search_count ≤ (EFFORT_TIERS effort).max_searches ∧
        s'.loop_count ≤ (EFFORT_TIERS effort).max_research_loops := by
    rintro s' ⟨he, h1, h2⟩
    unfold ResearchState.max_searches at h1
    unfold ResearchState.max_loops at h2
    rw [he] at h1 h2
    exact ⟨h1, h2⟩
  unfold research_topic at hs
  by_cases ht : py_strip topic = ""
  · rw [if_pos ht] at hs
    cases hs
  · rw [if_neg ht] at hs
    split at hs
    · obtain rfl := List.mem_singleton.mp hs
      exact final _ hP0
    · rename_i queries rrat hgen
      split at hs
      · rename_i e tr1 heq1
        have hri := run_searches_inv c.web _ hsearch
          (queries.map (·.query)) (initial_state topic effort) hP0
        rcases List.mem_cons.mp hs with rfl | hmem
        · exact final _ hP0
        · refine final _ (hri.1 s ?_)
          rw [heq1]
          exact hmem
      · rename_i st1 tr1 heq1
        have hri := run_searches_inv c.web _ hsearch
          (queries.map (·.query)) (initial_state topic effort) hP0
        have hP1 := hri.2 st1 (by rw [heq1])
        have hli := reflect_loop_inv c _ hsearch hloop st1 hP1
        split at hs
        · rename_i e tr2 heq2
          rcases List.mem_cons.mp hs with rfl | hmem
          · exact final _ hP0
          · rcases List.mem_append.mp hmem with hm | hm
            · exact final _ (hri.1 s (by rw [heq1]; exact hm))
            · exact final _ (hli.1 s (by rw [heq2]; exact hm))
        · rename_i st2 tr2 heq2
          have hP2 := hli.2 st2 (by rw [heq2])
          have hPf : ({ st2 with is_complete := true } : ResearchState).effort_level = effort ∧
              ({ st2 with is_complete := true } : ResearchState).search_count ≤
                ({ st2 with is_complete := true } : ResearchState).max_searches ∧
              ({ st2 with is_complete := true } : ResearchState).loop_count ≤
                ({ st2 with is_complete := true } : ResearchState).max_loops :=
            ⟨hP2.1, hP2.2.1, hP2.2.2⟩
          split at hs
          all_goals
            rcases List.mem_cons.mp hs with rfl | hmem
            · exact final _ hP0
            · rcases List.mem_append.mp hmem with hm | hm
              · rcases List.mem_append.mp hm with hm' | hm'
                · exact final _ (hri.1 s (by rw [heq1]; exact hm'))
                · exact final _ (hli.1 s (by rw [heq2]; exact hm'))
              · obtain rfl := List.mem_singleton.mp hm
                exact final _ hPf

/-- Claim C1, witness at topic `"t"`, low tier, the always-raising
collaborators: the initial state is in the run's trace and satisfies the
budget bounds. -/
theorem research_topic_budget_invariant_witness :
    (initial_state "t" .low ∈
      (research_topic "t" .low "abc" fail_collab "d" ∅).2.2) ∧
    ((initial_state "t" .low).search_count ≤ (EFFORT_TIERS .low).max_searches ∧
      (initial_state "t" .low).loop_count ≤ (EFFORT_TIERS .low).max_research_loops) :=
  ⟨by decide,
   research_topic_budget_invariant "t" .low "abc" fail_collab "d" ∅ _ (by decide)⟩

/-- Claim C7. Within every `research_topic` session, at every point of the
run, the `search_id` values of the dispatched searches (each assigned the
session's `search_count` at dispatch time, degraded results included) are
exactly `0, 1, 2, …` in dispatch order — strictly increasing, consecutive,
starting at 0, never reused or skipped — and `search_count` equals the
number of dispatched searches. -/
theorem research_topic_search_ids (topic : String) (effort : EffortLevel)
    (sid : String) (c : Collaborators) (today : String) (reg : Finset String)
    (s : ResearchState)
    (hs : s ∈ (research_topic topic effort sid c today reg).2.2) :
    s.results.map (fun r => r.search_id) = List.range s.results.length ∧
      s.search_count = s.results.length := by
  have hsearch : ∀ st q content cits, st.can_continue = true →
      (st.results.map (fun r => r.search_id) = List.range st.results.length ∧
        st.search_count = st.results.length) →
      ((apply_search st q content cits).results.map (fun r => r.search_id) =
          List.range (apply_search st q content cits).results.length ∧
        (apply_search st q content cits).search_count =
          (apply_search st q content cits).results.length) := by
    intro st q content cits _ hPst
    obtain ⟨h1, h2⟩ := hPst
    constructor
    · show (st.results ++ [SearchResult.mk content cits q st.search_count]).map
          (fun r => r.search_id) =
        List.range (st.results ++ [SearchResult.mk content cits q st.search_count]).length
      rw [List.map_append, h1, List.length_append, h2]
      simp [List.range_succ]
    · show st.search_count + 1 =
        (st.results ++ [SearchResult.mk content cits q st.search_count]).length
      rw [List.length_append, h2]
      simp
  have hloop : ∀ st, st.can_continue = true → st.loop_count < st.max_loops →
      (st.results.map (fun r => r.search_id) = List.range st.results.length ∧
        st.search_count = st.results.length) →
      ((bump_loop st).results.map (fun r => r.search_id) =
          List.range (bump_loop st).results.length ∧
        (bump_loop st).search_count = (bump_loop st).results.length) := by
    intro st _ _ hPst
    exact hPst
  have hP0 : (initial_state topic effort).results.map (fun r => r.search_id) =
      List.range (initial_state topic effort).results.length ∧
      (initial_state topic effort).search_count =
        (initial_state topic effort).results.length := ⟨rfl, rfl⟩
  unfold research_topic at hs
  by_cases ht : py_strip topic = ""
  · rw [if_pos ht] at hs
    cases hs
  · rw [if_neg ht] at hs
    split at hs
    · obtain rfl := List.mem_singleton.mp hs
      exact hP0
    · rename_i queries rrat hgen
      split at hs
      · rename_i e tr1 heq1
        have hri := run_searches_inv c.web _ hsearch
          (queries.map (·.query)) (initial_state topic effort) hP0
        rcases List.mem_cons.mp hs with rfl | hmem
        · exact hP0
        · exact hri.1 s (by rw [heq1]; exact hmem)
      · rename_i st1 tr1 heq1
        have hri := run_searches_inv c.web _ hsearch
          (queries.map (·.query)) (initial_state topic effort) hP0
        have hP1 := hri.2 st1 (by rw [heq1])
        have hli := reflect_loop_inv c _ hsearch hloop st1 hP1
        split at hs
        · rename_i e tr2 heq2
          rcases List.mem_cons.mp hs with rfl | hmem
          · exact hP0
          · rcases List.mem_append.mp hmem with hm | hm
            · exact hri.1 s (by rw [heq1]; exact hm)
            · exact hli.1 s (by rw [heq2]; exact hm)
        · rename_i st2 tr2 heq2
          have hP2 := hli.2 st2 (by rw [heq2])
          split at hs
          all_goals
            rcases List.mem_cons.mp hs with rfl | hmem
            · exact hP0
            · rcases List.mem_append.mp hmem with hm | hm
              · rcases List.mem_append.mp hm with hm' | hm'
                · exact hri.1 s (by rw [heq1]; exact hm')
                · exact hli.1 s (by rw [heq2]; exact hm')
              · obtain rfl := List.mem_singleton.mp hm
                exact ⟨hP2.1, hP2.2⟩

/-- Claim C7, witness at topic `"t"`, low tier, the always-raising
collaborators: the initial state is in the run's trace and satisfies the
identifier discipline. -/
theorem research_topic_search_ids_witness :
    (initial_state "t" .low ∈
      (research_topic "t" .low "abc" fail_collab "d" ∅).2.2) ∧
    ((initial_state "t" .low).results.map (fun r => r.search_id) =
        List.range (initial_state "t" .low).results.length ∧
      (initial_state "t" .low).search_count =
        (initial_state "t" .low).results.length) :=
  ⟨by decide,
   research_topic_search_ids "t" .low "abc" fail_collab "d" ∅ _ (by decide)⟩

/-- Claim C8. In the reflection loop of `research_topic`, when the loop body
is entered and the reflection gate returns a reflection with
`is_sufficient` true or `confidence_score > 0.8`, the loop exits
immediately: the run's loop trace is the single incremented state, no
follow-up query is dispatched (`results` and `search_count` unchanged),
and on a first iteration (`loop_count = 0`) the loop ends with
`loop_count = 1` regardless of remaining search budget. -/
theorem reflect_loop_sufficiency_break (c : Collaborators) (st : ResearchState)
    (r : ResearchReflection)
    (hcc : st.can_continue = true)
    (hrefl : c.refl (st.loop_count + 1) = .ok r)
    (hsuff : r.is_sufficient = true ∨ r.confidence_score > 8/10) :
    reflect_loop c st = (.ok (bump_loop st), [bump_loop st]) ∧
    (bump_loop st).loop_count = st.loop_count + 1 ∧
    (bump_loop st).results = st.results ∧
    (bump_loop st).search_count = st.search_count ∧
    (st.loop_count = 0 → (bump_loop st).loop_count = 1) := by
  have hlt : st.loop_count < st.max_loops := ((can_continue_iff st).mp hcc).2.1
  have hb : (r.is_sufficient || decide (r.confidence_score > 8/10)) = true := by
    rcases hsuff with h | h
    · simp [h]
    · simp [h]
  refine ⟨reflect_loop_eq_break c st r ⟨hcc, hlt⟩ hrefl hb, rfl, rfl, rfl, ?_⟩
  intro h0
  show st.loop_count + 1 = 1
  rw [h0]

/-- Claim C8, witness: the fresh low-tier session state (ample remaining
budget, first iteration) with a reflection of confidence 0.95. -/
theorem reflect_loop_sufficiency_break_witness :
    ((initial_state "t" .low).can_continue = true) ∧
    (confident_collab.refl ((initial_state "t" .low).loop_count + 1) =
      .ok confident_reflection) ∧
    (confident_reflection.is_sufficient = true ∨
      confident_reflection.confidence_score > 8/10) ∧
    (reflect_loop confident_collab (initial_state "t" .low) =
        (.ok (bump_loop (initial_state "t" .low)),
         [bump_loop (initial_state "t" .low)]) ∧
      (bump_loop (initial_state "t" .low)).loop_count =
        (initial_state "t" .low).loop_count + 1 ∧
      (bump_loop (initial_state "t" .low)).results =
        (initial_state "t" .low).results ∧
      (bump_loop (initial_state "t" .low)).search_count =
        (initial_state "t" .low).search_count ∧
      ((initial_state "t" .low).loop_count = 0 →
        (bump_loop (initial_state "t" .low)).loop_count = 1)) :=
  ⟨by decide, rfl, Or.inr (by simp only [confident_reflection]; norm_num),
   reflect_loop_sufficiency_break confident_collab (initial_state "t" .low)
     confident_reflection (by decide) rfl
     (Or.inr (by simp only [confident_reflection]; norm_num))⟩

end GeminiResearch
